import Mathlib

/-!
Shallow embedding of the Wazuh RBAC relationship store
(src/framework/wazuh/rbac/orm.py) in Lean 4.

Python values that can appear as role rules / policy bodies are modelled by
the inductive `PyValue` (JSON-representable values; dictionary keys are
strings, as the bodies handled by this module come from JSON requests).
The SQLite database is modelled by a `Store` record holding the five tables
as lists in insertion order.  Each manager method becomes a pure function
from a `Store` (the session state) to a result together with the new
`Store`; a rolled-back transaction leaves the store unchanged.  Uncaught
Python exceptions (AttributeError, TypeError) are modelled by the `Outcome`
wrapper.  `json.dumps` followed by `json.loads` is the identity on
string-keyed JSON-representable values and `json.dumps` is injective on
them, so the serialized TEXT columns `Roles.rule` and `Policies.policy` are
modelled by storing the `PyValue` itself and comparing values (`PyValue.beq`)
for the uniqueness constraints the database enforces on the serialized text.
-/

/-- A JSON-representable Python value (dict keys are strings). -/
inductive PyValue where
  | pnone
  | pbool (b : Bool)
  | pint (n : Int)
  | pstr (s : String)
  | plist (xs : List PyValue)
  | pdict (entries : List (String × PyValue))

mutual

/-- Structural equality of Python values (`==` on the JSON fragment). -/
def PyValue.beq : PyValue → PyValue → Bool
  | .pnone, .pnone => true
  | .pbool a, .pbool b => a == b
  | .pint a, .pint b => a == b
  | .pstr a, .pstr b => a == b
  | .plist xs, .plist ys => PyValue.beqList xs ys
  | .pdict es, .pdict fs => PyValue.beqDict es fs
  | _, _ => false

/-- Elementwise equality of lists of Python values. -/
def PyValue.beqList : List PyValue → List PyValue → Bool
  | [], [] => true
  | x :: xs, y :: ys => PyValue.beq x y && PyValue.beqList xs ys
  | _, _ => false

/-- Entrywise equality of string-keyed dictionaries. -/
def PyValue.beqDict : List (String × PyValue) → List (String × PyValue) → Bool
  | [], [] => true
  | (k, v) :: es, (l, w) :: fs => k == l && PyValue.beq v w && PyValue.beqDict es fs
  | _, _ => false

end

instance : BEq PyValue := ⟨PyValue.beq⟩

/-- Error codes of the `SecurityError` enum of orm.py.  The Python enum
assigns `ALREADY_EXIST = False` and negative integers to the rest, but plain
`Enum` members are all truthy in Python regardless of their value. -/
inductive SecurityError where
  | ALREADY_EXIST
  | INVALID
  | ROLE_NOT_EXIST
  | POLICY_NOT_EXIST
  | ADMIN_RESOURCES
  | USER_NOT_EXIST
deriving DecidableEq, Repr

/-- Return value of a manager method: Python `True`, `False`, an implicit
`None` (falling off the end of the function), or a `SecurityError` member. -/
inductive PyRet where
  | retTrue
  | retFalse
  | retNone
  | retErr (e : SecurityError)
deriving DecidableEq, Repr

/-- Python truthiness of a manager return value.  `SecurityError` is a plain
`Enum`, so every member is truthy (even `ALREADY_EXIST`, whose value is
`False`); `None` and `False` are falsy. -/
def PyRet.truthy : PyRet → Bool
  | .retTrue => true
  | .retFalse => false
  | .retNone => false
  | .retErr _ => true

/-- Uncaught Python exceptions that can escape a manager method. -/
inductive PyExn where
  | attributeError
  | typeError
deriving DecidableEq, Repr

/-- Result of running a method body: a returned value or an uncaught
exception. -/
inductive Outcome (α : Type) where
  | ok (v : α)
  | exn (e : PyExn)
deriving DecidableEq, Repr

/-- Result of a getter that returns either an ORM object or a
`SecurityError` member (e.g. `RolesManager.get_role`). -/
inductive Fetched (α : Type) where
  | obj (a : α)
  | ferr (e : SecurityError)

/-- A row of the `users` table. -/
structure UserRow where
  username : String
  password : String
  authContext : Bool

/-- A row of the `roles` table; `rule` models the TEXT column holding
`json.dumps` of the rule. -/
structure RoleRow where
  id : Nat
  name : String
  rule : PyValue

/-- A row of the `policies` table; `policy` models the TEXT column holding
`json.dumps` of the body. -/
structure PolicyRow where
  id : Nat
  name : String
  policy : PyValue

/-- The five tables of the database, each in insertion order.  Association
rows are the `(user_id, role_id)` / `(role_id, policy_id)` pairs. -/
structure Store where
  users : List UserRow
  roles : List RoleRow
  policies : List PolicyRow
  userRoles : List (String × Nat)
  rolesPolicies : List (Nat × Nat)

/-- `admin_usernames = ['wazuh', 'wazuh-app']` -/
def adminUsernames : List String := ["wazuh", "wazuh-app"]

/-- `admin_role_ids = [1, 2]` -/
def adminRoleIds : List Nat := [1, 2]

/-- `admin_policy_ids = [1]` -/
def adminPolicyIds : List Nat := [1]

/-- `json_validator(data)`: `True` iff the data is a dict. -/
def json_validator : PyValue → Bool
  | .pdict _ => true
  | _ => false

/-- Character class `[a-z*]` of the first policy-token segment. -/
def segCharFirst (c : Char) : Bool :=
  (97 ≤ c.toNat && c.toNat ≤ 122) || c == '*'

/-- Character class `[a-z0-9*]` of the later policy-token segments. -/
def segCharRest (c : Char) : Bool :=
  (97 ≤ c.toNat && c.toNat ≤ 122) || (48 ≤ c.toNat && c.toNat ≤ 57) || c == '*'

/-- Split a character list at every `':'` (like `str.split(":")`). -/
def splitSegs : List Char → List (List Char)
  | [] => [[]]
  | c :: cs =>
      if c == ':' then [] :: splitSegs cs
      else
        match splitSegs cs with
        | [] => [[c]]
        | seg :: rest => (c :: seg) :: rest

/-- Core of the policy-token regex
`^[a-z*]+:[a-z0-9*]+(:[a-z0-9*]+)*$`: splitting on `:` must give at least
two segments, all nonempty, the first over `[a-z*]`, the rest over
`[a-z0-9*]`.  Segments cannot contain `:` after splitting, so this decides
exactly the language of the regex (up to the end-of-line subtlety handled
in `tokenMatch`). -/
def coreMatchL (cs : List Char) : Bool :=
  match splitSegs cs with
  | [] => false
  | [_] => false
  | s1 :: rest =>
      (!s1.isEmpty) && s1.all segCharFirst &&
      rest.all (fun t => (!t.isEmpty) && t.all segCharRest)

/-- `re.match(regex, s)` converted to a boolean, for
`regex = r'^[a-z*]+:[a-z0-9*]+(:[a-z0-9*]+)*$'`: in Python `$` also matches
just before one trailing newline, so a token followed by a single final
`'\n'` is accepted as well. -/
def tokenMatch (s : String) : Bool :=
  coreMatchL s.data || (s.data.getLast? == some '\n' && coreMatchL s.data.dropLast)

/-- The token grammar exactly as §4.3 of the spec words it:
`segment(":"segment)+`, first segment over `[a-z*]`, later segments over
`[a-z0-9*]`, with no newline allowance.  Kept separate from `tokenMatch`
(the source regex semantics) for comparison. -/
def specTokenGrammar (s : String) : Bool :=
  coreMatchL s.data

example : tokenMatch "agent:read" = true := by decide
example : tokenMatch "*:*" = true := by decide
example : tokenMatch "agent" = false := by decide
example : tokenMatch "Agent:read" = false := by decide
example : tokenMatch "agent:read\n" = true := by decide
example : specTokenGrammar "agent:read\n" = false := by decide
example : tokenMatch "a::b" = false := by decide
example : tokenMatch ":a" = false := by decide
example : tokenMatch "a:0*" = true := by decide
example : tokenMatch "0:a" = false := by decide

/-! ## Store lookups (models of `session.query(...).filter_by(...).first()`) -/

/-- `session.query(User).filter_by(username=...).first()` -/
def Store.findUser (s : Store) (username : String) : Option UserRow :=
  s.users.find? (fun u => u.username == username)

/-- `session.query(Roles).filter_by(id=...).first()` -/
def Store.findRoleById (s : Store) (rid : Nat) : Option RoleRow :=
  s.roles.find? (fun r => r.id == rid)

/-- `session.query(Roles).filter_by(name=...).first()` -/
def Store.findRoleByName (s : Store) (name : String) : Option RoleRow :=
  s.roles.find? (fun r => r.name == name)

/-- `session.query(Policies).filter_by(id=...).first()` -/
def Store.findPolicyById (s : Store) (pid : Nat) : Option PolicyRow :=
  s.policies.find? (fun p => p.id == pid)

/-- `session.query(Policies).filter_by(name=...).first()` -/
def Store.findPolicyByName (s : Store) (name : String) : Option PolicyRow :=
  s.policies.find? (fun p => p.name == name)

/-- `session.query(UserRoles).filter_by(user_id=..., role_id=...).first() is not None` -/
def Store.hasUserRole (s : Store) (username : String) (rid : Nat) : Bool :=
  s.userRoles.any (fun p => p.1 == username && p.2 == rid)

/-- `session.query(RolesPolicies).filter_by(role_id=..., policy_id=...).first() is not None` -/
def Store.hasRolePolicy (s : Store) (rid pid : Nat) : Bool :=
  s.rolesPolicies.any (fun p => p.1 == rid && p.2 == pid)

/-- The surrogate id SQLite assigns to a newly inserted role row
(max rowid + 1). -/
def Store.nextRoleId (s : Store) : Nat :=
  (s.roles.map RoleRow.id).foldl max 0 + 1

/-- The surrogate id SQLite assigns to a newly inserted policy row. -/
def Store.nextPolicyId (s : Store) : Nat :=
  (s.policies.map PolicyRow.id).foldl max 0 + 1

namespace RolesManager

/-- `RolesManager.get_role(name)`: the role object, or `ROLE_NOT_EXIST`
when no row has that name. -/
def get_role (s : Store) (name : String) : Fetched RoleRow :=
  match s.findRoleByName name with
  | some r => .obj r
  | none => .ferr .ROLE_NOT_EXIST

/-- `RolesManager.get_role_id(role_id)`. -/
def get_role_id (s : Store) (role_id : Nat) : Fetched RoleRow :=
  match s.findRoleById role_id with
  | some r => .obj r
  | none => .ferr .ROLE_NOT_EXIST

/-- `RolesManager.add_role(name, rule)`: a non-`None` non-dict rule is
`INVALID`; a `None` rule passes the guard and is stored as JSON `null`;
an `IntegrityError` at commit (duplicate name or duplicate serialized rule)
is rolled back and mapped to `ALREADY_EXIST`. -/
def add_role (s : Store) (name : String) (rule : PyValue) : PyRet × Store :=
  if (!(rule == PyValue.pnone)) && !(json_validator rule) then (.retErr .INVALID, s)
  else if s.roles.any (fun r => r.name == name || r.rule == rule) then
    (.retErr .ALREADY_EXIST, s)
  else
    (.retTrue, ⟨s.users, s.roles ++ [⟨s.nextRoleId, name, rule⟩], s.policies,
                s.userRoles, s.rolesPolicies⟩)

/-- `RolesManager.delete_role(role_id)`: admin ids are refused first; for a
missing role the staged association deletes are rolled back (the method
raises and catches `IntegrityError`), so the store is unchanged; otherwise
the `roles_policies` rows of the role and the role row are deleted
(`user_roles` rows are not touched by this method). -/
def delete_role (s : Store) (role_id : Nat) : PyRet × Store :=
  if adminRoleIds.contains role_id then (.retErr .ADMIN_RESOURCES, s)
  else if (s.findRoleById role_id).isSome then
    (.retTrue, ⟨s.users, s.roles.filter (fun r => !(r.id == role_id)), s.policies,
                s.userRoles, s.rolesPolicies.filter (fun p => !(p.1 == role_id))⟩)
  else (.retFalse, s)

/-- `RolesManager.delete_role_by_name(role_name)`: `self.get_role(...)`
returns a `SecurityError` member (never `None`) for a missing role, so the
`is not None` guard passes and the `.id` attribute access on the enum
member raises an uncaught `AttributeError`.  For an existing admin role the
guard fails and the method returns `False`; otherwise the role and its
`roles_policies` rows are deleted. -/
def delete_role_by_name (s : Store) (role_name : String) : Outcome PyRet × Store :=
  match s.findRoleByName role_name with
  | none => (.exn .attributeError, s)
  | some r =>
      if adminRoleIds.contains r.id then (.ok .retFalse, s)
      else (.ok .retTrue, ⟨s.users, s.roles.filter (fun q => !(q.name == role_name)), s.policies,
                           s.userRoles, s.rolesPolicies.filter (fun p => !(p.1 == r.id))⟩)

/-- `RolesManager.update_role(role_id, name, rule)`: missing role is
`ROLE_NOT_EXIST`; an admin id is `ADMIN_RESOURCES`; a non-`None` non-dict
rule is `INVALID`; if a name is supplied and any row (including the role
itself) already has it, `ALREADY_EXIST` is returned before mutating;
otherwise the row is updated, and an `IntegrityError` at commit (another
row with the same serialized rule) is rolled back and mapped to
`ROLE_NOT_EXIST` by the except branch. -/
def update_role (s : Store) (role_id : Nat) (name : Option String) (rule : PyValue) :
    PyRet × Store :=
  match s.findRoleById role_id with
  | none => (.retErr .ROLE_NOT_EXIST, s)
  | some r =>
      if adminRoleIds.contains r.id then (.retErr .ADMIN_RESOURCES, s)
      else if (!(rule == PyValue.pnone)) && !(json_validator rule) then (.retErr .INVALID, s)
      else
        let nameDup : Bool := match name with
          | some n => (s.findRoleByName n).isSome
          | none => false
        if nameDup then (.retErr .ALREADY_EXIST, s)
        else
          let newName := match name with | some n => n | none => r.name
          let newRule := if rule == PyValue.pnone then r.rule else rule
          if s.roles.any (fun q => (!(q.id == r.id)) && q.rule == newRule) then
            (.retErr .ROLE_NOT_EXIST, s)
          else
            (.retTrue, ⟨s.users,
              s.roles.map (fun q => if q.id == r.id then ⟨q.id, newName, newRule⟩ else q),
              s.policies, s.userRoles, s.rolesPolicies⟩)

end RolesManager

namespace PoliciesManager

/-- `PoliciesManager.get_policy(name)`. -/
def get_policy (s : Store) (name : String) : Fetched PolicyRow :=
  match s.findPolicyByName name with
  | some p => .obj p
  | none => .ferr .POLICY_NOT_EXIST

/-- `PoliciesManager.get_policy_id(policy_id)`. -/
def get_policy_id (s : Store) (policy_id : Nat) : Fetched PolicyRow :=
  match s.findPolicyById policy_id with
  | some p => .obj p
  | none => .ferr .POLICY_NOT_EXIST

/-- Dictionary read `policy[k]` (first entry with key `k`; a Python dict
has at most one). -/
def dget (es : List (String × PyValue)) (k : String) : Option PyValue :=
  (es.find? (fun e => e.1 == k)).map (fun e => e.2)

/-- The two `for` loops of `add_policy` over `policy['actions']` /
`policy['resources']`: scanning stops at the first element that is not a
string (`re.match` raises `TypeError`) or at the first string failing the
regex (return `INVALID`). -/
def checkTokens : List PyValue → Outcome (Option SecurityError)
  | [] => .ok none
  | .pstr t :: rest => if tokenMatch t then checkTokens rest else .ok (some .INVALID)
  | _ :: _ => .exn .typeError

/-- `PoliciesManager.add_policy(name, policy)`, line by line:
a non-`None` non-dict body fails the `json_validator` guard and returns
`SecurityError.ALREADY_EXIST` (the guard maps validation failure to
`ALREADY_EXIST`, not `INVALID`); a `None` body passes the guard and then
raises `AttributeError` at `policy.keys()`; a dict body must have exactly
3 keys including `actions`, `resources`, `effect`, with list values for the
first two and a string `effect`, and every element of the two lists must be
a string matching the regex; only then is the row inserted, with a
duplicate name or duplicate serialized body caught as `IntegrityError` at
commit and mapped to `ALREADY_EXIST`. -/
def add_policy (s : Store) (name : String) (policy : PyValue) : Outcome PyRet × Store :=
  match policy with
  | .pnone => (.exn .attributeError, s)
  | .pdict es =>
      if !(es.length == 3) then (.ok (.retErr .INVALID), s)
      else if (es.map Prod.fst).contains "actions" && (es.map Prod.fst).contains "resources" then
        if (es.map Prod.fst).contains "effect" then
          match dget es "actions", dget es "resources", dget es "effect" with
          | some (.plist acts), some (.plist ress), some (.pstr _) =>
              match checkTokens acts with
              | .exn e => (.exn e, s)
              | .ok (some err) => (.ok (.retErr err), s)
              | .ok none =>
                  match checkTokens ress with
                  | .exn e => (.exn e, s)
                  | .ok (some err) => (.ok (.retErr err), s)
                  | .ok none =>
                      if s.policies.any
                          (fun p => p.name == name || p.policy == PyValue.pdict es) then
                        (.ok (.retErr .ALREADY_EXIST), s)
                      else
                        (.ok .retTrue, ⟨s.users, s.roles,
                          s.policies ++ [⟨s.nextPolicyId, name, PyValue.pdict es⟩],
                          s.userRoles, s.rolesPolicies⟩)
          | _, _, _ => (.ok (.retErr .INVALID), s)
        else (.ok (.retErr .INVALID), s)
      else (.ok (.retErr .INVALID), s)
  | _ => (.ok (.retErr .ALREADY_EXIST), s)

/-- `PoliciesManager.delete_policy(policy_id)`: admin ids refused first;
missing policy rolls back and returns `False`; otherwise the
`roles_policies` rows of the policy and the policy row are deleted. -/
def delete_policy (s : Store) (policy_id : Nat) : PyRet × Store :=
  if adminPolicyIds.contains policy_id then (.retErr .ADMIN_RESOURCES, s)
  else if (s.findPolicyById policy_id).isSome then
    (.retTrue, ⟨s.users, s.roles, s.policies.filter (fun p => !(p.id == policy_id)),
                s.userRoles, s.rolesPolicies.filter (fun p => !(p.2 == policy_id))⟩)
  else (.retFalse, s)

/-- `PoliciesManager.delete_policy_by_name(policy_name)`: like
`delete_role_by_name`, `self.get_policy(...)` returns a `SecurityError`
member (never `None`) for a missing policy, so the `.id` access raises an
uncaught `AttributeError`.  (The `is None` test on the bulk `delete()`
call, which returns a row count, is a dead branch; the second `delete()`
deletes zero further rows.) -/
def delete_policy_by_name (s : Store) (policy_name : String) : Outcome PyRet × Store :=
  match s.findPolicyByName policy_name with
  | none => (.exn .attributeError, s)
  | some p =>
      if adminPolicyIds.contains p.id then (.ok .retFalse, s)
      else (.ok .retTrue, ⟨s.users, s.roles,
                           s.policies.filter (fun q => !(q.name == policy_name)),
                           s.userRoles, s.rolesPolicies.filter (fun q => !(q.2 == p.id))⟩)

/-- `PoliciesManager.update_policy(policy_id, name, policy)`: missing
policy is `POLICY_NOT_EXIST`; an admin id is `ADMIN_RESOURCES`; a
non-`None` non-dict body is `INVALID`; a supplied name already used by any
row (including the policy itself) is `ALREADY_EXIST` before mutating.  The
body is replaced only when it is a dict containing the keys `actions`,
`resources` and `effect` (mere presence: no key-count check, no type or
regex check on the values); a dict body without those keys is silently
ignored and the method still commits and returns `True`.  An
`IntegrityError` at commit (duplicate serialized body) is rolled back and
mapped to `POLICY_NOT_EXIST` by the except branch. -/
def update_policy (s : Store) (policy_id : Nat) (name : Option String) (policy : PyValue) :
    PyRet × Store :=
  match s.findPolicyById policy_id with
  | none => (.retErr .POLICY_NOT_EXIST, s)
  | some p =>
      if adminPolicyIds.contains p.id then (.retErr .ADMIN_RESOURCES, s)
      else if (!(policy == PyValue.pnone)) && !(json_validator policy) then
        (.retErr .INVALID, s)
      else
        let nameDup : Bool := match name with
          | some n => (s.findPolicyByName n).isSome
          | none => false
        if nameDup then (.retErr .ALREADY_EXIST, s)
        else
          let newName := match name with | some n => n | none => p.name
          let hasKeys : Bool := match policy with
            | .pdict es =>
                (es.map Prod.fst).contains "actions" &&
                (es.map Prod.fst).contains "resources" &&
                (es.map Prod.fst).contains "effect"
            | _ => false
          let newBody := if (!(policy == PyValue.pnone)) && hasKeys then policy else p.policy
          if s.policies.any (fun q => (!(q.id == p.id)) && q.policy == newBody) then
            (.retErr .POLICY_NOT_EXIST, s)
          else
            (.retTrue, ⟨s.users, s.roles,
              s.policies.map (fun q => if q.id == p.id then ⟨q.id, newName, newBody⟩ else q),
              s.userRoles, s.rolesPolicies⟩)

end PoliciesManager

namespace UserRolesManager

/-- `UserRolesManager.add_role_to_user(username, role_id)`: checks in fixed
order — admin username first, then user existence, then role existence,
then the duplicate-pair check; only then is the association appended. -/
def add_role_to_user (s : Store) (username : String) (role_id : Nat) : PyRet × Store :=
  if adminUsernames.contains username then (.retErr .ADMIN_RESOURCES, s)
  else if (s.findUser username).isNone then (.retErr .USER_NOT_EXIST, s)
  else if (s.findRoleById role_id).isNone then (.retErr .ROLE_NOT_EXIST, s)
  else if s.hasUserRole username role_id then (.retErr .ALREADY_EXIST, s)
  else (.retTrue, ⟨s.users, s.roles, s.policies,
                   s.userRoles ++ [(username, role_id)], s.rolesPolicies⟩)

/-- `UserRolesManager.add_user_to_role`: clone of the previous function. -/
def add_user_to_role (s : Store) (username : String) (role_id : Nat) : PyRet × Store :=
  add_role_to_user s username role_id

/-- `UserRolesManager.get_all_roles_from_user(username)`: `user.roles` on
the `None` returned for a missing user raises an uncaught
`AttributeError`; otherwise the roles joined through `user_roles` rows, in
association insertion order.  The session is not mutated. -/
def get_all_roles_from_user (s : Store) (username : String) : Outcome (List RoleRow) :=
  match s.findUser username with
  | none => .exn .attributeError
  | some _ =>
      .ok ((s.userRoles.filter (fun p => p.1 == username)).filterMap
        (fun p => s.findRoleById p.2))

/-- `UserRolesManager.get_all_users_from_role(role_id)`: `role.users` on
`None` raises an uncaught `AttributeError` for a missing role. -/
def get_all_users_from_role (s : Store) (role_id : Nat) : Outcome (List UserRow) :=
  match s.findRoleById role_id with
  | none => .exn .attributeError
  | some _ =>
      .ok ((s.userRoles.filter (fun p => p.2 == role_id)).filterMap
        (fun p => s.findUser p.1))

/-- `UserRolesManager.exist_user_role(username, role_id)`: missing user or
role yields the corresponding `SecurityError`; with both present, `True`
for an existing pair and `False` otherwise (the method raises
`IntegrityError` at the miss and its except branch returns `False`). -/
def exist_user_role (s : Store) (username : String) (role_id : Nat) : PyRet :=
  if (s.findUser username).isNone then .retErr .USER_NOT_EXIST
  else if (s.findRoleById role_id).isNone then .retErr .ROLE_NOT_EXIST
  else if s.hasUserRole username role_id then .retTrue
  else .retFalse

/-- `UserRolesManager.exist_role_user`: clone of the previous function. -/
def exist_role_user (s : Store) (username : String) (role_id : Nat) : PyRet :=
  exist_user_role s username role_id

/-- `UserRolesManager.remove_role_in_user(username, role_id)`: admin
username first, then user/role existence, then the pair is removed if
present, else `INVALID`. -/
def remove_role_in_user (s : Store) (username : String) (role_id : Nat) : PyRet × Store :=
  if adminUsernames.contains username then (.retErr .ADMIN_RESOURCES, s)
  else if (s.findUser username).isNone then (.retErr .USER_NOT_EXIST, s)
  else if (s.findRoleById role_id).isNone then (.retErr .ROLE_NOT_EXIST, s)
  else if s.hasUserRole username role_id then
    (.retTrue, ⟨s.users, s.roles, s.policies,
      s.userRoles.filter (fun p => !(p.1 == username && p.2 == role_id)), s.rolesPolicies⟩)
  else (.retErr .INVALID, s)

/-- `UserRolesManager.remove_user_in_role`: clone of the previous
function. -/
def remove_user_in_role (s : Store) (username : String) (role_id : Nat) : PyRet × Store :=
  remove_role_in_user s username role_id

/-- `UserRolesManager.remove_all_users_in_role(role_id)`: an admin role id
falls through the `if` and implicitly returns `None`; a missing role makes
`.users` on `None` raise an uncaught `AttributeError`; otherwise every
association of the role with an existing non-admin user is removed and the
method returns `True`. -/
def remove_all_users_in_role (s : Store) (role_id : Nat) : Outcome PyRet × Store :=
  if adminRoleIds.contains role_id then (.ok .retNone, s)
  else
    match s.findRoleById role_id with
    | none => (.exn .attributeError, s)
    | some _ =>
        (.ok .retTrue, ⟨s.users, s.roles, s.policies,
          s.userRoles.filter (fun p =>
            !(p.2 == role_id && (!(adminUsernames.contains p.1)) && (s.findUser p.1).isSome)),
          s.rolesPolicies⟩)

/-- `UserRolesManager.replace_user_role(username, actual_role_id,
new_role_id)`: the guard uses the Python truthiness of
`exist_user_role` — `SecurityError` members (missing user or missing
actual role) are truthy, so only the boolean `False` (pair absent with
both endpoints present) blocks the branch; the results of the remove and
add steps are ignored and `True` is returned whenever the guard passes. -/
def replace_user_role (s : Store) (username : String) (actual_role_id new_role_id : Nat) :
    PyRet × Store :=
  if (!(adminUsernames.contains username)) && (exist_user_role s username actual_role_id).truthy
      && (s.findRoleById new_role_id).isSome then
    let s1 := (remove_role_in_user s username actual_role_id).2
    let s2 := (add_user_to_role s1 username new_role_id).2
    (.retTrue, s2)
  else (.retFalse, s)

end UserRolesManager

namespace RolesPoliciesManager

/-- `RolesPoliciesManager.add_policy_to_role(role_id, policy_id)`: checks
in fixed order — admin role id first, then role existence, then policy
existence, then the duplicate-pair check. -/
def add_policy_to_role (s : Store) (role_id policy_id : Nat) : PyRet × Store :=
  if adminRoleIds.contains role_id then (.retErr .ADMIN_RESOURCES, s)
  else if (s.findRoleById role_id).isNone then (.retErr .ROLE_NOT_EXIST, s)
  else if (s.findPolicyById policy_id).isNone then (.retErr .POLICY_NOT_EXIST, s)
  else if s.hasRolePolicy role_id policy_id then (.retErr .ALREADY_EXIST, s)
  else (.retTrue, ⟨s.users, s.roles, s.policies, s.userRoles,
                   s.rolesPolicies ++ [(role_id, policy_id)]⟩)

/-- `RolesPoliciesManager.add_role_to_policy`: clone of the previous
function (argument order swapped). -/
def add_role_to_policy (s : Store) (policy_id role_id : Nat) : PyRet × Store :=
  add_policy_to_role s role_id policy_id

/-- `RolesPoliciesManager.get_all_policies_from_role(role_id)`:
`role.policies` on `None` raises an uncaught `AttributeError` for a
missing role. -/
def get_all_policies_from_role (s : Store) (role_id : Nat) : Outcome (List PolicyRow) :=
  match s.findRoleById role_id with
  | none => .exn .attributeError
  | some _ =>
      .ok ((s.rolesPolicies.filter (fun p => p.1 == role_id)).filterMap
        (fun p => s.findPolicyById p.2))

/-- `RolesPoliciesManager.get_all_roles_from_policy(policy_id)`:
`policy.roles` on `None` raises an uncaught `AttributeError` for a missing
policy. -/
def get_all_roles_from_policy (s : Store) (policy_id : Nat) : Outcome (List RoleRow) :=
  match s.findPolicyById policy_id with
  | none => .exn .attributeError
  | some _ =>
      .ok ((s.rolesPolicies.filter (fun p => p.2 == policy_id)).filterMap
        (fun p => s.findRoleById p.1))

/-- `RolesPoliciesManager.exist_role_policy(role_id, policy_id)`. -/
def exist_role_policy (s : Store) (role_id policy_id : Nat) : PyRet :=
  if (s.findRoleById role_id).isNone then .retErr .ROLE_NOT_EXIST
  else if (s.findPolicyById policy_id).isNone then .retErr .POLICY_NOT_EXIST
  else if s.hasRolePolicy role_id policy_id then .retTrue
  else .retFalse

/-- `RolesPoliciesManager.exist_policy_role`: clone of the previous
function. -/
def exist_policy_role (s : Store) (policy_id role_id : Nat) : PyRet :=
  exist_role_policy s role_id policy_id

/-- `RolesPoliciesManager.remove_policy_in_role(role_id, policy_id)`. -/
def remove_policy_in_role (s : Store) (role_id policy_id : Nat) : PyRet × Store :=
  if adminRoleIds.contains role_id then (.retErr .ADMIN_RESOURCES, s)
  else if (s.findRoleById role_id).isNone then (.retErr .ROLE_NOT_EXIST, s)
  else if (s.findPolicyById policy_id).isNone then (.retErr .POLICY_NOT_EXIST, s)
  else if s.hasRolePolicy role_id policy_id then
    (.retTrue, ⟨s.users, s.roles, s.policies, s.userRoles,
      s.rolesPolicies.filter (fun p => !(p.1 == role_id && p.2 == policy_id))⟩)
  else (.retErr .INVALID, s)

/-- `RolesPoliciesManager.remove_role_in_policy`: clone of the previous
function. -/
def remove_role_in_policy (s : Store) (role_id policy_id : Nat) : PyRet × Store :=
  remove_policy_in_role s role_id policy_id

/-- `RolesPoliciesManager.replace_role_policy(role_id, actual_policy_id,
new_policy_id)`: like `replace_user_role`, the guard relies on the Python
truthiness of `exist_role_policy` (its `SecurityError` members are truthy)
and the results of the remove and add steps are ignored. -/
def replace_role_policy (s : Store) (role_id actual_policy_id new_policy_id : Nat) :
    PyRet × Store :=
  if (!(adminRoleIds.contains role_id)) && (exist_role_policy s role_id actual_policy_id).truthy
      && (s.findPolicyById new_policy_id).isSome then
    let s1 := (remove_policy_in_role s role_id actual_policy_id).2
    let s2 := (add_policy_to_role s1 role_id new_policy_id).2
    (.retTrue, s2)
  else (.retFalse, s)

end RolesPoliciesManager

/-! ## Derived predicates -/

/-- A list element accepted by the token loops of `add_policy`: a string
matching the source regex. -/
def tokenOk : PyValue → Bool
  | .pstr t => tokenMatch t
  | _ => false

/-- The set of policy bodies accepted (and inserted) by `add_policy`: a
dict with exactly 3 keys including `actions`, `resources`, `effect`, whose
`actions`/`resources` are lists of strings matching the source regex and
whose `effect` is a string.  Written with the same branch structure as
`add_policy` so the two can be compared branch by branch. -/
def validPolicyBody : PyValue → Bool
  | .pdict es =>
      if !(es.length == 3) then false
      else if (es.map Prod.fst).contains "actions" && (es.map Prod.fst).contains "resources" then
        if (es.map Prod.fst).contains "effect" then
          match PoliciesManager.dget es "actions", PoliciesManager.dget es "resources",
                PoliciesManager.dget es "effect" with
          | some (.plist acts), some (.plist ress), some (.pstr _) =>
              acts.all tokenOk && ress.all tokenOk
          | _, _, _ => false
        else false
      else false
  | _ => false

/-- The uniqueness constraints that make an insert of `(name, policy)` into
the `policies` table raise `IntegrityError` (duplicate `name` or duplicate
serialized `policy`). -/
def policyDup (s : Store) (name : String) (policy : PyValue) : Bool :=
  s.policies.any (fun p => p.name == name || p.policy == policy)

/-- The claimed table invariant: every stored policy body is of the shape
`add_policy` accepts. -/
def policiesInvariant (s : Store) : Bool :=
  s.policies.all (fun p => validPolicyBody p.policy)

/-- The uniqueness constraints of the `roles` table (duplicate `name` or
duplicate serialized `rule`). -/
def roleDup (s : Store) (name : String) (rule : PyValue) : Bool :=
  s.roles.any (fun r => r.name == name || r.rule == rule)

/-! ## Helper lemmas about the token loops -/

theorem checkTokens_eq_ok_none (xs : List PyValue) :
    PoliciesManager.checkTokens xs = .ok none ↔ xs.all tokenOk = true := by
  induction xs with
  | nil => simp [PoliciesManager.checkTokens]
  | cons x rest ih =>
      cases x with
      | pstr t =>
          by_cases htm : tokenMatch t = true <;>
            simp [PoliciesManager.checkTokens, tokenOk, htm, ih]
      | pnone => simp [PoliciesManager.checkTokens, tokenOk]
      | pbool b => simp [PoliciesManager.checkTokens, tokenOk]
      | pint n => simp [PoliciesManager.checkTokens, tokenOk]
      | plist ys => simp [PoliciesManager.checkTokens, tokenOk]
      | pdict es => simp [PoliciesManager.checkTokens, tokenOk]

theorem checkTokens_some_invalid (xs : List PyValue) (e : SecurityError)
    (h : PoliciesManager.checkTokens xs = .ok (some e)) : e = .INVALID := by
  induction xs with
  | nil => simp [PoliciesManager.checkTokens] at h
  | cons x rest ih =>
      cases x with
      | pstr t =>
          by_cases htm : tokenMatch t = true
          · exact ih (by simpa [PoliciesManager.checkTokens, htm] using h)
          · simp [PoliciesManager.checkTokens, htm] at h
            exact h.symm
      | pnone => simp [PoliciesManager.checkTokens] at h
      | pbool b => simp [PoliciesManager.checkTokens] at h
      | pint n => simp [PoliciesManager.checkTokens] at h
      | plist ys => simp [PoliciesManager.checkTokens] at h
      | pdict es => simp [PoliciesManager.checkTokens] at h

theorem all_tokenOk_iff (xs : List PyValue) :
    xs.all tokenOk = true ↔ PoliciesManager.checkTokens xs = .ok none :=
  (checkTokens_eq_ok_none xs).symm

theorem forall_tokenOk_iff (xs : List PyValue) :
    (∀ x ∈ xs, tokenOk x = true) ↔ PoliciesManager.checkTokens xs = .ok none := by
  rw [← List.all_eq_true]
  exact all_tokenOk_iff xs

/-- `add_policy` returns `True` exactly on a body `add_policy` accepts that
violates no uniqueness constraint. -/
theorem add_policy_fst_true_iff (s : Store) (name : String) (body : PyValue) :
    (PoliciesManager.add_policy s name body).1 = .ok .retTrue ↔
      validPolicyBody body = true ∧ policyDup s name body = false := by
  cases body with
  | pdict es =>
      simp only [PoliciesManager.add_policy, validPolicyBody, policyDup]
      repeat' split
      all_goals simp_all [forall_tokenOk_iff]
      rename_i hdup
      obtain ⟨x, hx, hor⟩ := hdup
      exact ⟨x, hx, fun hn => hor.resolve_left hn⟩
  | pnone => simp [PoliciesManager.add_policy, validPolicyBody]
  | pbool b => simp [PoliciesManager.add_policy, validPolicyBody]
  | pint n => simp [PoliciesManager.add_policy, validPolicyBody]
  | pstr t => simp [PoliciesManager.add_policy, validPolicyBody]
  | plist xs => simp [PoliciesManager.add_policy, validPolicyBody]

/-- On success `add_policy` appends exactly one row holding the given body;
on any failure or exception the store is unchanged. -/
theorem add_policy_snd (s : Store) (name : String) (body : PyValue) :
    ((PoliciesManager.add_policy s name body).1 = .ok .retTrue ∧
      (PoliciesManager.add_policy s name body).2 =
        ⟨s.users, s.roles, s.policies ++ [⟨s.nextPolicyId, name, body⟩],
         s.userRoles, s.rolesPolicies⟩) ∨
    ((PoliciesManager.add_policy s name body).1 ≠ .ok .retTrue ∧
      (PoliciesManager.add_policy s name body).2 = s) := by
  cases body with
  | pdict es =>
      simp only [PoliciesManager.add_policy]
      repeat' split
      all_goals simp_all
  | pnone => simp [PoliciesManager.add_policy]
  | pbool b => simp [PoliciesManager.add_policy]
  | pint n => simp [PoliciesManager.add_policy]
  | pstr t => simp [PoliciesManager.add_policy]
  | plist xs => simp [PoliciesManager.add_policy]

/-- A body that is neither `None` nor a dict makes `add_policy` return
`SecurityError.ALREADY_EXIST` (not `INVALID`). -/
theorem add_policy_nondict (s : Store) (name : String) (body : PyValue)
    (h1 : json_validator body = false) (h2 : body ≠ PyValue.pnone) :
    (PoliciesManager.add_policy s name body).1 = .ok (.retErr .ALREADY_EXIST) := by
  cases body with
  | pdict es => simp [json_validator] at h1
  | pnone => simp at h2
  | pbool b => simp [PoliciesManager.add_policy]
  | pint n => simp [PoliciesManager.add_policy]
  | pstr t => simp [PoliciesManager.add_policy]
  | plist xs => simp [PoliciesManager.add_policy]

/-- A `None` body passes the `json_validator` guard and raises
`AttributeError` at `policy.keys()`. -/
theorem add_policy_pnone (s : Store) (name : String) :
    PoliciesManager.add_policy s name .pnone = (.exn .attributeError, s) := rfl

/-- A valid body whose name or serialized body duplicates an existing row
is refused with `ALREADY_EXIST` at insert time. -/
theorem add_policy_valid_dup (s : Store) (name : String) (body : PyValue)
    (h1 : validPolicyBody body = true) (h2 : policyDup s name body = true) :
    (PoliciesManager.add_policy s name body).1 = .ok (.retErr .ALREADY_EXIST) := by
  cases body with
  | pdict es =>
      simp only [PoliciesManager.add_policy, validPolicyBody, policyDup] at h1 h2 ⊢
      repeat' split
      all_goals simp_all [forall_tokenOk_iff]
  | pnone => simp [validPolicyBody] at h1
  | pbool b => simp [validPolicyBody] at h1
  | pint n => simp [validPolicyBody] at h1
  | pstr t => simp [validPolicyBody] at h1
  | plist xs => simp [validPolicyBody] at h1

/-- A `checkTokens` exception is always the `TypeError` raised by
`re.match` on a non-string element. -/
theorem checkTokens_exn_eq (xs : List PyValue) (e : PyExn)
    (h : PoliciesManager.checkTokens xs = .exn e) : e = .typeError := by
  induction xs with
  | nil => simp [PoliciesManager.checkTokens] at h
  | cons x rest ih =>
      cases x with
      | pstr t =>
          by_cases htm : tokenMatch t = true
          · exact ih (by simpa [PoliciesManager.checkTokens, htm] using h)
          · simp [PoliciesManager.checkTokens, htm] at h
      | pnone => simpa [PoliciesManager.checkTokens] using h.symm
      | pbool b => simpa [PoliciesManager.checkTokens] using h.symm
      | pint n => simpa [PoliciesManager.checkTokens] using h.symm
      | plist ys => simpa [PoliciesManager.checkTokens] using h.symm
      | pdict es => simpa [PoliciesManager.checkTokens] using h.symm

/-- Enumeration of the possible results of `add_policy` on a dict body. -/
theorem add_policy_fst_cases (s : Store) (name : String) (es : List (String × PyValue)) :
    (PoliciesManager.add_policy s name (.pdict es)).1 = .ok .retTrue ∨
    ((PoliciesManager.add_policy s name (.pdict es)).1 = .ok (.retErr .ALREADY_EXIST) ∧
      validPolicyBody (.pdict es) = true) ∨
    (PoliciesManager.add_policy s name (.pdict es)).1 = .ok (.retErr .INVALID) ∨
    (PoliciesManager.add_policy s name (.pdict es)).1 = .exn .typeError := by
  simp only [PoliciesManager.add_policy]
  repeat' split
  all_goals first
    | (exact Or.inl rfl)
    | (exact Or.inr (Or.inr (Or.inl rfl)))
    | (have he := checkTokens_exn_eq _ _ (by assumption)
       subst he
       exact Or.inr (Or.inr (Or.inr rfl)))
    | (have he := checkTokens_some_invalid _ _ (by assumption)
       subst he
       exact Or.inr (Or.inr (Or.inl rfl)))
    | (refine Or.inr (Or.inl ⟨rfl, ?_⟩)
       simp_all [validPolicyBody, forall_tokenOk_iff])

/-- A dict body that `add_policy` does not accept yields `INVALID`, except
that a non-string element reached in the `actions`/`resources` loops
raises `TypeError` instead. -/
theorem add_policy_dict_invalid (s : Store) (name : String) (es : List (String × PyValue))
    (h : validPolicyBody (.pdict es) = false) :
    (PoliciesManager.add_policy s name (.pdict es)).1 = .ok (.retErr .INVALID) ∨
    (PoliciesManager.add_policy s name (.pdict es)).1 = .exn .typeError := by
  rcases add_policy_fst_cases s name es with h1 | ⟨h1, hv⟩ | h1 | h1
  · exact absurd ((add_policy_fst_true_iff s name _).1 h1).1 (by simp [h])
  · exact absurd hv (by simp [h])
  · exact Or.inl h1
  · exact Or.inr h1

/-! ## Concrete stores and bodies used as test inputs -/

/-- The empty database. -/
def emptyStore : Store := ⟨[], [], [], [], []⟩

/-- A policy body `add_policy` accepts. -/
def goodBody : PyValue :=
  .pdict [("actions", .plist [.pstr "agent:read"]),
          ("resources", .plist [.pstr "agent:id:*"]),
          ("effect", .pstr "allow")]

/-- A second accepted policy body, distinct from `goodBody`. -/
def goodBody2 : PyValue :=
  .pdict [("actions", .plist [.pstr "agent:delete"]),
          ("resources", .plist [.pstr "agent:id:*"]),
          ("effect", .pstr "deny")]

/-- A body with the three mandatory keys present but a fourth key and a
token violating the grammar: `update_policy` stores it anyway. -/
def badBodyExtraKey : PyValue :=
  .pdict [("actions", .plist [.pstr "AGENT READ"]),
          ("resources", .plist [.pstr "agent:id:*"]),
          ("effect", .pstr "allow"),
          ("extra", .pint 1)]

/-- A store holding one non-admin policy (id 2) with a valid body. -/
def storeOnePolicy : Store := ⟨[], [], [⟨2, "p2", goodBody⟩], [], []⟩

/-- C1, counterexample: the policies-table invariant holds of
`storeOnePolicy`, yet one `update_policy` call with a replacement body
that has an extra key and a grammar-violating action succeeds and leaves
the table violating the invariant — so the invariant is not preserved by
every operation. -/
theorem update_policy_breaks_policies_invariant :
    policiesInvariant storeOnePolicy = true ∧
    (PoliciesManager.update_policy storeOnePolicy 2 none badBodyExtraKey).1 = .retTrue ∧
    policiesInvariant (PoliciesManager.update_policy storeOnePolicy 2 none badBodyExtraKey).2
      = false :=
  ⟨by decide, by decide, by decide⟩

/-- C1, amended: the invariant does hold of everything `add_policy`
stores — `add_policy` only ever inserts bodies with exactly the three keys
`actions`, `resources`, `effect`, list values for the first two, a string
`effect`, and every list element a string matching the source regex (which
also tolerates one trailing newline) — but `update_policy` does not
preserve it. -/
theorem add_policy_preserves_policies_invariant (s : Store) (name : String) (body : PyValue)
    (h : policiesInvariant s = true) :
    policiesInvariant (PoliciesManager.add_policy s name body).2 = true := by
  rcases add_policy_snd s name body with ⟨h1, h2⟩ | ⟨_, h2⟩
  · rw [h2]
    have hv := ((add_policy_fst_true_iff s name body).1 h1).1
    simp only [policiesInvariant] at h ⊢
    simp_all [List.all_append]
  · rw [h2]
    exact h

/-- Witness for C1 at a concrete input. -/
theorem add_policy_preserves_policies_invariant_witness :
    policiesInvariant (PoliciesManager.add_policy emptyStore "p1" goodBody).2 = true :=
  add_policy_preserves_policies_invariant emptyStore "p1" goodBody (by decide)

/-- C3, counterexample: on a body that is not a mapping at all,
`add_policy` returns `SecurityError.ALREADY_EXIST`, not `INVALID` as the
claim states for every shape deviation. -/
theorem add_policy_nondict_already_exist :
    (PoliciesManager.add_policy emptyStore "p1" (PyValue.pstr "notadict")).1
        = .ok (.retErr .ALREADY_EXIST) ∧
    (PoliciesManager.add_policy emptyStore "p1" (PyValue.pstr "notadict")).1
        ≠ .ok (.retErr .INVALID) :=
  ⟨rfl, by decide⟩

/-- C3, amended: `add_policy` succeeds exactly on a dict body with exactly
the keys `{actions, resources, effect}`, list-of-string `actions` and
`resources`, string `effect`, every token matching the source regex
(Python semantics: one trailing newline is also accepted, unlike the
section 4.3 grammar), and no duplicate name/body; a valid-but-duplicate
body yields `ALREADY_EXIST` at insert time; a body that is not a mapping
yields `ALREADY_EXIST` (not `INVALID`); a `None` body raises
`AttributeError`; a deviating dict yields `INVALID` except that a
non-string list element raises `TypeError`; only a success mutates the
store. -/
theorem add_policy_characterization (s : Store) (name : String) (body : PyValue) :
    ((PoliciesManager.add_policy s name body).1 = .ok .retTrue ↔
      validPolicyBody body = true ∧ policyDup s name body = false)
  ∧ (validPolicyBody body = true → policyDup s name body = true →
      (PoliciesManager.add_policy s name body).1 = .ok (.retErr .ALREADY_EXIST))
  ∧ (json_validator body = false → body ≠ PyValue.pnone →
      (PoliciesManager.add_policy s name body).1 = .ok (.retErr .ALREADY_EXIST))
  ∧ (body = PyValue.pnone →
      PoliciesManager.add_policy s name body = (.exn .attributeError, s))
  ∧ (∀ es, body = PyValue.pdict es → validPolicyBody body = false →
      (PoliciesManager.add_policy s name body).1 = .ok (.retErr .INVALID) ∨
      (PoliciesManager.add_policy s name body).1 = .exn .typeError)
  ∧ ((PoliciesManager.add_policy s name body).1 = .ok .retTrue →
      (PoliciesManager.add_policy s name body).2 =
        ⟨s.users, s.roles, s.policies ++ [⟨s.nextPolicyId, name, body⟩],
         s.userRoles, s.rolesPolicies⟩)
  ∧ ((PoliciesManager.add_policy s name body).1 ≠ .ok .retTrue →
      (PoliciesManager.add_policy s name body).2 = s)
  ∧ (tokenMatch "agent:read\n" = true ∧ specTokenGrammar "agent:read\n" = false) := by
  have hsnd := add_policy_snd s name body
  refine ⟨add_policy_fst_true_iff s name body,
          add_policy_valid_dup s name body,
          add_policy_nondict s name body,
          fun hb => by rw [hb]; exact add_policy_pnone s name,
          fun es hb hv => by subst hb; exact add_policy_dict_invalid s name es hv,
          ?_, ?_, by decide⟩
  · intro hs
    rcases hsnd with ⟨_, h2⟩ | ⟨hne, _⟩
    · exact h2
    · exact absurd hs hne
  · intro hs
    rcases hsnd with ⟨h1, _⟩ | ⟨_, h2⟩
    · exact absurd h1 hs
    · exact h2

/-- Witness for C3 at concrete inputs: a valid body on the empty store
succeeds, and the concrete non-mapping body is refused with
`ALREADY_EXIST`. -/
theorem add_policy_characterization_witness :
    (PoliciesManager.add_policy emptyStore "p1" goodBody).1 = .ok .retTrue ∧
    (PoliciesManager.add_policy emptyStore "p1" (PyValue.pbool true)).1
      = .ok (.retErr .ALREADY_EXIST) :=
  ⟨((add_policy_characterization emptyStore "p1" goodBody).1).2 ⟨by decide, by decide⟩,
   (add_policy_characterization emptyStore "p1" (PyValue.pbool true)).2.2.1 (by decide)
     (by intro h; exact PyValue.noConfusion h)⟩

/-- C2: in both association add operations the checks fire in the fixed
order admin-protection, then endpoint existence (first endpoint before
second), then duplicate: an admin username / admin role id short-circuits
to `ADMIN_RESOURCES` regardless of any other condition, a missing first
endpoint hides a missing second one, and `ALREADY_EXIST` is only reachable
with both endpoints present. -/
theorem assoc_add_validation_order (s : Store) (username : String) (role_id policy_id : Nat) :
    (adminUsernames.contains username = true →
      UserRolesManager.add_role_to_user s username role_id = (.retErr .ADMIN_RESOURCES, s))
  ∧ (adminUsernames.contains username = false → s.findUser username = none →
      UserRolesManager.add_role_to_user s username role_id = (.retErr .USER_NOT_EXIST, s))
  ∧ (adminUsernames.contains username = false → (s.findUser username).isSome = true →
      s.findRoleById role_id = none →
      UserRolesManager.add_role_to_user s username role_id = (.retErr .ROLE_NOT_EXIST, s))
  ∧ (adminUsernames.contains username = false → (s.findUser username).isSome = true →
      (s.findRoleById role_id).isSome = true → s.hasUserRole username role_id = true →
      UserRolesManager.add_role_to_user s username role_id = (.retErr .ALREADY_EXIST, s))
  ∧ (adminUsernames.contains username = false → (s.findUser username).isSome = true →
      (s.findRoleById role_id).isSome = true → s.hasUserRole username role_id = false →
      UserRolesManager.add_role_to_user s username role_id =
        (.retTrue, ⟨s.users, s.roles, s.policies, s.userRoles ++ [(username, role_id)],
                    s.rolesPolicies⟩))
  ∧ (adminRoleIds.contains role_id = true →
      RolesPoliciesManager.add_policy_to_role s role_id policy_id
        = (.retErr .ADMIN_RESOURCES, s))
  ∧ (adminRoleIds.contains role_id = false → s.findRoleById role_id = none →
      RolesPoliciesManager.add_policy_to_role s role_id policy_id
        = (.retErr .ROLE_NOT_EXIST, s))
  ∧ (adminRoleIds.contains role_id = false → (s.findRoleById role_id).isSome = true →
      s.findPolicyById policy_id = none →
      RolesPoliciesManager.add_policy_to_role s role_id policy_id
        = (.retErr .POLICY_NOT_EXIST, s))
  ∧ (adminRoleIds.contains role_id = false → (s.findRoleById role_id).isSome = true →
      (s.findPolicyById policy_id).isSome = true → s.hasRolePolicy role_id policy_id = true →
      RolesPoliciesManager.add_policy_to_role s role_id policy_id
        = (.retErr .ALREADY_EXIST, s)) := by
  refine ⟨?_, ?_, ?_, ?_, ?_, ?_, ?_, ?_, ?_⟩ <;>
    (intros;
     simp_all [UserRolesManager.add_role_to_user, RolesPoliciesManager.add_policy_to_role,
               Option.isNone_iff_eq_none, Option.isSome_iff_ne_none])

/-- Witness for C2: `add_role_to_user("wazuh", 3)` is `ADMIN_RESOURCES`
on the empty store (role 3 does not even exist), and the admin role id 1
short-circuits `add_policy_to_role` the same way. -/
theorem assoc_add_validation_order_witness :
    UserRolesManager.add_role_to_user emptyStore "wazuh" 3
      = (.retErr .ADMIN_RESOURCES, emptyStore) ∧
    RolesPoliciesManager.add_policy_to_role emptyStore 1 5
      = (.retErr .ADMIN_RESOURCES, emptyStore) :=
  ⟨(assoc_add_validation_order emptyStore "wazuh" 3 5).1 (by decide),
   (assoc_add_validation_order emptyStore "x" 1 5).2.2.2.2.2.1 (by decide)⟩

/-- C7: deleting an admin role id (1 or 2) or the admin policy id (1)
returns `ADMIN_RESOURCES` and the entire store — rows and association
rows alike — is exactly the one before the call. -/
theorem delete_admin_resources_frame (s : Store) (role_id policy_id : Nat) :
    ((role_id = 1 ∨ role_id = 2) →
      RolesManager.delete_role s role_id = (.retErr .ADMIN_RESOURCES, s))
  ∧ (policy_id = 1 →
      PoliciesManager.delete_policy s policy_id = (.retErr .ADMIN_RESOURCES, s)) := by
  constructor
  · rintro (rfl | rfl) <;> simp [RolesManager.delete_role, adminRoleIds]
  · rintro rfl
    simp [PoliciesManager.delete_policy, adminPolicyIds]

/-- Witness for C7 at a concrete store. -/
theorem delete_admin_resources_frame_witness :
    RolesManager.delete_role storeOnePolicy 2 = (.retErr .ADMIN_RESOURCES, storeOnePolicy) ∧
    PoliciesManager.delete_policy storeOnePolicy 1
      = (.retErr .ADMIN_RESOURCES, storeOnePolicy) :=
  ⟨(delete_admin_resources_frame storeOnePolicy 2 1).1 (Or.inr rfl),
   (delete_admin_resources_frame storeOnePolicy 2 1).2 rfl⟩

/-- Rule `{"a": 1}` of the spec round-trip scenario. -/
def ruleA : PyValue := .pdict [("a", .pint 1)]

/-- A second role rule, distinct from `ruleA`. -/
def ruleB : PyValue := .pdict [("b", .pint 2)]

/-- A populated store: user `alice` with roles 4 and 3 (in that association
insertion order), roles 3 and 4, policy 2 associated with role 3. -/
def storeAssoc : Store :=
  ⟨[⟨"alice", "hash", false⟩], [⟨3, "r3", ruleA⟩, ⟨4, "r4", ruleB⟩], [⟨2, "p2", goodBody⟩],
   [("alice", 4), ("alice", 3)], [(3, 2)]⟩

/-- C4: at concrete inputs with a nonexistent role name, policy name, or
role id, the by-name deleters and the bulk association remover raise an
uncaught `AttributeError` instead of returning a typed result or a plain
failure: `get_role`/`get_policy` return a `SecurityError` member (never
`None`), so the `is not None` guards pass and `.id` is read off the enum,
and `remove_all_users_in_role` reads `.users` off `None`. -/
theorem by_name_and_bulk_ops_raise_attribute_error :
    (RolesManager.delete_role_by_name storeAssoc "nosuch").1 = .exn .attributeError ∧
    (PoliciesManager.delete_policy_by_name storeAssoc "nosuch").1 = .exn .attributeError ∧
    (UserRolesManager.remove_all_users_in_role storeAssoc 99).1 = .exn .attributeError :=
  ⟨rfl, rfl, rfl⟩

/-- C5, counterexample: the user `ghost` does not exist and the
`(ghost, 1)` association does not exist, yet `replace_user_role` returns
`True` — `exist_user_role` returns the truthy `SecurityError.USER_NOT_EXIST`
enum member, which passes the guard. -/
theorem replace_user_role_missing_user_returns_true :
    storeAssoc.findUser "ghost" = none ∧
    storeAssoc.hasUserRole "ghost" 1 = false ∧
    (UserRolesManager.replace_user_role storeAssoc "ghost" 1 3).1 = .retTrue :=
  ⟨rfl, rfl, rfl⟩

/-- C5, amended: `replace_user_role` (resp. `replace_role_policy`) returns
success iff the first argument is not admin-protected, the new peer
exists, and the `exist` probe is Python-truthy — which holds when the
association exists but also when the user (resp. role) or the actual peer
does not exist, since `SecurityError` members are truthy; the results of
the remove and add steps are ignored.  The last conjunct isolates the
missing-user case. -/
theorem replace_ops_success_characterization (s : Store) (username : String)
    (actual_role_id new_role_id role_id actual_policy_id new_policy_id : Nat) :
    ((UserRolesManager.replace_user_role s username actual_role_id new_role_id).1
        = .retTrue ↔
      adminUsernames.contains username = false ∧
      (UserRolesManager.exist_user_role s username actual_role_id).truthy = true ∧
      (s.findRoleById new_role_id).isSome = true)
  ∧ ((RolesPoliciesManager.replace_role_policy s role_id actual_policy_id new_policy_id).1
        = .retTrue ↔
      adminRoleIds.contains role_id = false ∧
      (RolesPoliciesManager.exist_role_policy s role_id actual_policy_id).truthy = true ∧
      (s.findPolicyById new_policy_id).isSome = true)
  ∧ (s.findUser username = none → adminUsernames.contains username = false →
      (s.findRoleById new_role_id).isSome = true →
      (UserRolesManager.replace_user_role s username actual_role_id new_role_id).1
        = .retTrue) := by
  refine ⟨?_, ?_, ?_⟩
  · simp only [UserRolesManager.replace_user_role]
    split <;> simp_all
  · simp only [RolesPoliciesManager.replace_role_policy]
    split <;> simp_all
  · intro h hadmin hnew
    have hadmin2 : username ∉ adminUsernames := by simpa using hadmin
    simp [UserRolesManager.replace_user_role, UserRolesManager.exist_user_role,
          PyRet.truthy, h, hadmin2, hnew]

/-- Witness for C5: a legitimate replace on `storeAssoc` returns `True`. -/
theorem replace_ops_success_characterization_witness :
    (UserRolesManager.replace_user_role storeAssoc "alice" 3 4).1 = .retTrue :=
  ((replace_ops_success_characterization storeAssoc "alice" 3 4 0 0 0).1).2
    ⟨by decide, rfl, rfl⟩

/-- C6, counterexample: for a username with no user row,
`get_all_roles_from_user` raises an uncaught `AttributeError`
(`None.roles`) instead of returning an empty sequence. -/
theorem get_all_roles_from_user_missing_user_raises :
    UserRolesManager.get_all_roles_from_user emptyStore "ghost" = .exn .attributeError ∧
    UserRolesManager.get_all_roles_from_user emptyStore "ghost" ≠ .ok [] := by
  refine ⟨rfl, ?_⟩
  simp only [show UserRolesManager.get_all_roles_from_user emptyStore "ghost"
      = Outcome.exn PyExn.attributeError from rfl]
  simp

/-- C6, amended: when the entity itself is missing, each of the four
list-association operations raises `AttributeError` (the `first()` lookup
returns `None` and the relationship attribute access fails) — not an empty
sequence; for an existing entity they return the peers joined through the
association rows in association-insertion order. -/
theorem list_assoc_ops_behavior (s : Store) (username : String) (role_id policy_id : Nat) :
    (s.findUser username = none →
      UserRolesManager.get_all_roles_from_user s username = .exn .attributeError)
  ∧ ((s.findUser username).isSome = true →
      UserRolesManager.get_all_roles_from_user s username =
        .ok ((s.userRoles.filter (fun p => p.1 == username)).filterMap
          (fun p => s.findRoleById p.2)))
  ∧ (s.findRoleById role_id = none →
      UserRolesManager.get_all_users_from_role s role_id = .exn .attributeError)
  ∧ ((s.findRoleById role_id).isSome = true →
      UserRolesManager.get_all_users_from_role s role_id =
        .ok ((s.userRoles.filter (fun p => p.2 == role_id)).filterMap
          (fun p => s.findUser p.1)))
  ∧ (s.findRoleById role_id = none →
      RolesPoliciesManager.get_all_policies_from_role s role_id = .exn .attributeError)
  ∧ ((s.findRoleById role_id).isSome = true →
      RolesPoliciesManager.get_all_policies_from_role s role_id =
        .ok ((s.rolesPolicies.filter (fun p => p.1 == role_id)).filterMap
          (fun p => s.findPolicyById p.2)))
  ∧ (s.findPolicyById policy_id = none →
      RolesPoliciesManager.get_all_roles_from_policy s policy_id = .exn .attributeError)
  ∧ ((s.findPolicyById policy_id).isSome = true →
      RolesPoliciesManager.get_all_roles_from_policy s policy_id =
        .ok ((s.rolesPolicies.filter (fun p => p.2 == policy_id)).filterMap
          (fun p => s.findRoleById p.1))) := by
  refine ⟨?_, ?_, ?_, ?_, ?_, ?_, ?_, ?_⟩
  · intro h; simp [UserRolesManager.get_all_roles_from_user, h]
  · intro h
    rcases Option.isSome_iff_exists.1 h with ⟨u, hu⟩
    simp [UserRolesManager.get_all_roles_from_user, hu]
  · intro h; simp [UserRolesManager.get_all_users_from_role, h]
  · intro h
    rcases Option.isSome_iff_exists.1 h with ⟨r, hr⟩
    simp [UserRolesManager.get_all_users_from_role, hr]
  · intro h; simp [RolesPoliciesManager.get_all_policies_from_role, h]
  · intro h
    rcases Option.isSome_iff_exists.1 h with ⟨r, hr⟩
    simp [RolesPoliciesManager.get_all_policies_from_role, hr]
  · intro h; simp [RolesPoliciesManager.get_all_roles_from_policy, h]
  · intro h
    rcases Option.isSome_iff_exists.1 h with ⟨p, hp⟩
    simp [RolesPoliciesManager.get_all_roles_from_policy, hp]

/-- Witness for C6: `alice` has roles 4 then 3 in association insertion
order, and a missing user raises. -/
theorem list_assoc_ops_behavior_witness :
    UserRolesManager.get_all_roles_from_user storeAssoc "alice"
      = .ok [⟨4, "r4", ruleB⟩, ⟨3, "r3", ruleA⟩] ∧
    UserRolesManager.get_all_roles_from_user storeAssoc "ghost" = .exn .attributeError :=
  ⟨((list_assoc_ops_behavior storeAssoc "alice" 0 0).2.1 rfl).trans rfl,
   (list_assoc_ops_behavior storeAssoc "ghost" 0 0).1 rfl⟩

/-- C8, counterexample: `add_role` with a `None` rule does not return
`INVALID` — the guard `rule is not None and not json_validator(rule)` skips
`None`, so the role is inserted with rule `json.dumps(None) = "null"` and
the call returns `True`. -/
theorem add_role_none_rule_succeeds :
    RolesManager.add_role emptyStore "r1" PyValue.pnone
      = (.retTrue, ⟨[], [⟨1, "r1", PyValue.pnone⟩], [], [], []⟩) ∧
    (RolesManager.add_role emptyStore "r1" PyValue.pnone).1 ≠ .retErr .INVALID :=
  ⟨rfl, by decide⟩

/-- C8, amended: a rule that is neither `None` nor a dict returns `INVALID`
and inserts nothing; a `None` or dict rule is inserted, with a uniqueness
violation (duplicate name or duplicate serialized rule) mapped to
`ALREADY_EXIST` and the store left unchanged. -/
theorem add_role_characterization (s : Store) (name : String) (rule : PyValue) :
    ((rule == PyValue.pnone) = false → json_validator rule = false →
      RolesManager.add_role s name rule = (.retErr .INVALID, s))
  ∧ (((rule == PyValue.pnone) = true ∨ json_validator rule = true) →
      roleDup s name rule = true →
      RolesManager.add_role s name rule = (.retErr .ALREADY_EXIST, s))
  ∧ (((rule == PyValue.pnone) = true ∨ json_validator rule = true) →
      roleDup s name rule = false →
      RolesManager.add_role s name rule =
        (.retTrue, ⟨s.users, s.roles ++ [⟨s.nextRoleId, name, rule⟩], s.policies,
                    s.userRoles, s.rolesPolicies⟩)) := by
  refine ⟨?_, ?_, ?_⟩
  · intro h1 h2
    simp [RolesManager.add_role, h1, h2]
  · intro h1 h2
    rcases h1 with h | h <;> simp_all [RolesManager.add_role, roleDup]
  · intro h1 h2
    rcases h1 with h | h <;> simp_all [RolesManager.add_role, roleDup]

/-- Witness for C8: a non-dict, non-`None` rule is refused as `INVALID` on
the empty store. -/
theorem add_role_characterization_witness :
    RolesManager.add_role emptyStore "r1" (PyValue.pstr "x") = (.retErr .INVALID, emptyStore) :=
  (add_role_characterization emptyStore "r1" (PyValue.pstr "x")).1 rfl rfl

/-- `find?` skips a prefix on which the predicate never holds. -/
theorem find?_append_of_none {α : Type} (l₁ l₂ : List α) (p : α → Bool)
    (h : l₁.find? p = none) : (l₁ ++ l₂).find? p = l₂.find? p := by
  induction l₁ with
  | nil => simp
  | cons a t ih =>
      by_cases hp : p a = true
      · simp [List.find?, hp] at h
      · simp only [Bool.not_eq_true] at hp
        simp only [List.find?, hp] at h
        simpa [List.find?, hp] using ih h

/-- A store in which the rule `{"a": 1}` is already taken by role `r0`
(and no role is named `r1`). -/
def storeRuleTaken : Store := ⟨[], [⟨5, "r0", ruleA⟩], [], [], []⟩

/-- C9, counterexample: no role named `r1` exists, yet
`add_role("r1", {"a": 1})` fails with `ALREADY_EXIST` (the rule column is
unique and `r0` already serializes to the same JSON), so the subsequent
`get_role("r1")` returns `ROLE_NOT_EXIST` instead of a role whose rule is
deep-equal to the input. -/
theorem add_get_role_roundtrip_rule_collision :
    storeRuleTaken.roles.all (fun r => !(r.name == "r1")) = true ∧
    (RolesManager.add_role storeRuleTaken "r1" ruleA).1 = .retErr .ALREADY_EXIST ∧
    RolesManager.get_role (RolesManager.add_role storeRuleTaken "r1" ruleA).2 "r1"
      = .ferr .ROLE_NOT_EXIST :=
  ⟨by decide, by decide, rfl⟩

/-- C9, amended: for every dict `d`, on a store with no role named `r1`
and no role whose serialized rule equals `d`, `add_role("r1", d)` followed
by `get_role("r1")` returns the inserted role, whose stored rule
(`json.loads` of `json.dumps(d)`) is deep-equal to `d`. -/
theorem add_get_role_roundtrip (s : Store) (d : PyValue) (hd : json_validator d = true)
    (hname : s.roles.all (fun r => !(r.name == "r1")) = true)
    (hrule : s.roles.all (fun r => !(r.rule == d)) = true) :
    RolesManager.get_role (RolesManager.add_role s "r1" d).2 "r1"
        = .obj ⟨s.nextRoleId, "r1", d⟩ ∧
    (RoleRow.mk s.nextRoleId "r1" d).rule = d := by
  have hno : s.roles.any (fun r => r.name == "r1" || r.rule == d) = false := by
    rw [List.any_eq_false]
    intro r hr
    have h1 := (List.all_eq_true.1 hname) r hr
    have h2 := (List.all_eq_true.1 hrule) r hr
    simp only [Bool.not_eq_true'] at h1 h2
    simp [h1, h2]
  have hfind : s.roles.find? (fun r => r.name == "r1") = none := by
    rw [List.find?_eq_none]
    intro r hr
    have h1 := (List.all_eq_true.1 hname) r hr
    simpa using h1
  refine ⟨?_, rfl⟩
  simp only [RolesManager.add_role, hd, Bool.not_true, Bool.and_false, Bool.false_and, hno,
    Bool.false_eq_true, if_false]
  simp only [RolesManager.get_role, Store.findRoleByName]
  rw [find?_append_of_none _ _ _ hfind]
  simp [List.find?]

/-- Witness for C9: the round trip on the empty store with `{"a": 1}`. -/
theorem add_get_role_roundtrip_witness :
    RolesManager.get_role (RolesManager.add_role emptyStore "r1" ruleA).2 "r1"
      = .obj ⟨1, "r1", ruleA⟩ ∧ (RoleRow.mk 1 "r1" ruleA).rule = ruleA :=
  add_get_role_roundtrip emptyStore ruleA rfl (by decide) (by decide)

/-- C10: updating an existing non-admin role (resp. policy) passing its
own current name is refused with `ALREADY_EXIST` — the uniqueness
pre-check `filter_by(name=name).first() is not None` finds the entity
itself — and the store is unchanged, for any rule/body argument that is
`None` or a dict. -/
theorem update_with_own_name_already_exist (s : Store) (role_id policy_id : Nat)
    (r : RoleRow) (p : PolicyRow) :
    (s.findRoleById role_id = some r → adminRoleIds.contains r.id = false →
      ∀ rule, ((rule == PyValue.pnone) = true ∨ json_validator rule = true) →
      RolesManager.update_role s role_id (some r.name) rule = (.retErr .ALREADY_EXIST, s))
  ∧ (s.findPolicyById policy_id = some p → adminPolicyIds.contains p.id = false →
      ∀ body, ((body == PyValue.pnone) = true ∨ json_validator body = true) →
      PoliciesManager.update_policy s policy_id (some p.name) body
        = (.retErr .ALREADY_EXIST, s)) := by
  constructor
  · intro hfind hadmin rule hrule
    have hmem : r ∈ s.roles := List.mem_of_find?_eq_some hfind
    have hname : (s.findRoleByName r.name).isSome = true := by
      rcases hfs : s.findRoleByName r.name with _ | q
      · exfalso
        rw [Store.findRoleByName, List.find?_eq_none] at hfs
        exact absurd (beq_self_eq_true r.name) (hfs r hmem)
      · rfl
    have hadmin2 : r.id ∉ adminRoleIds := by simpa using hadmin
    simp only [RolesManager.update_role, hfind]
    rcases hrule with h | h <;> simp [hadmin2, hname, h]
  · intro hfind hadmin body hbody
    have hmem : p ∈ s.policies := List.mem_of_find?_eq_some hfind
    have hname : (s.findPolicyByName p.name).isSome = true := by
      rcases hfs : s.findPolicyByName p.name with _ | q
      · exfalso
        rw [Store.findPolicyByName, List.find?_eq_none] at hfs
        exact absurd (beq_self_eq_true p.name) (hfs p hmem)
      · rfl
    have hadmin2 : p.id ∉ adminPolicyIds := by simpa using hadmin
    simp only [PoliciesManager.update_policy, hfind]
    rcases hbody with h | h <;> simp [hadmin2, hname, h]

/-- A store with a non-admin role (id 3) and a non-admin policy (id 2). -/
def storeC10 : Store := ⟨[], [⟨3, "r3", ruleA⟩], [⟨2, "p2", goodBody⟩], [], []⟩

/-- Witness for C10: no-change renames on `storeC10` are rejected. -/
theorem update_with_own_name_already_exist_witness :
    RolesManager.update_role storeC10 3 (some "r3") PyValue.pnone
      = (.retErr .ALREADY_EXIST, storeC10) ∧
    PoliciesManager.update_policy storeC10 2 (some "p2") PyValue.pnone
      = (.retErr .ALREADY_EXIST, storeC10) :=
  ⟨(update_with_own_name_already_exist storeC10 3 2 ⟨3, "r3", ruleA⟩ ⟨2, "p2", goodBody⟩).1
      rfl rfl PyValue.pnone (Or.inl rfl),
   (update_with_own_name_already_exist storeC10 3 2 ⟨3, "r3", ruleA⟩ ⟨2, "p2", goodBody⟩).2
      rfl rfl PyValue.pnone (Or.inl rfl)⟩
